import Mathlib

/-!
Verification development for the CoupleQuizMarketerAI repository.

The repository has two pipeline variants:
* the newer pipeline in `tiktok_generator.py` (class `TikTokVideoGenerator`
  driven by a JSON config), and
* the older simple pipeline in `main.py` (class of the same name with
  hardcoded settings).

We shallowly embed the parts of both pipelines that the claims concern:
configuration loading (`__init__` / `_load_config` key accesses),
`_hex_to_rgb`, `_text_clip` (caption animation), `resize_image_for_tiktok`,
the square-crop helper `create_resized_clip` inside `create_question_clip`,
the clip constructors (`create_intro_clip`, `create_hook_clip`,
`create_share_clip`, `create_question_clip`, `create_pause_clip`) and
`generate_video` of both variants, plus the CLI image-pairing logic in
`main()` of `tiktok_generator.py`.

Modelling conventions:
* Python floats are modelled as exact rationals (`ℚ`); the traced
  computations (durations, ratios, layout arithmetic) are simple enough that
  rounding plays no role in any claim we settle.
* Python `int(x)` (truncation toward zero) is `pytrunc`; Python `//` on
  possibly negative ints is `Int.fdiv` (floor division); `Nat` subtraction
  only appears where the source guarantees the minuend is larger.
* Effectful calls are traced: `generate_video` returns, besides its result,
  the list of texts sent to TTS synthesis (`generate_tts_audio`) and the
  roles of the clips composed, in order.
* TTS narration duration is an oracle `dur : String → ℚ`: the audio file
  produced for a text has whatever duration the external service gives it.
* Exceptions are `Except GenError`; `KeyError` for missing dict keys,
  `ValueError` for explicit raises and bad int-parses.
-/

namespace CoupleQuiz

/-- Python `int(x)` on a float/rational: truncation toward zero. -/
def pytrunc (q : ℚ) : Int :=
  if 0 ≤ q then ⌊q⌋ else -⌊-q⌋

/-- Errors that the traced code can raise. -/
inductive GenError where
  | keyError (key : String)
  | valueError (msg : String)
  deriving Repr, DecidableEq

/-- Value of a single hex digit, `none` when the character is not one
(`int(s, 16)` accepts upper and lower case).  Character ranges are
`'0'..'9'` (codes 48-57), `'a'..'f'` (97-102), `'A'..'F'` (65-70). -/
def hexDigit (c : Char) : Option Nat :=
  if 48 ≤ c.toNat ∧ c.toNat ≤ 57 then some (c.toNat - 48)
  else if 97 ≤ c.toNat ∧ c.toNat ≤ 102 then some (c.toNat - 97 + 10)
  else if 65 ≤ c.toNat ∧ c.toNat ≤ 70 then some (c.toNat - 65 + 10)
  else none

/-- Python `int(s, 16)` on a string of hex digits: `none` on the empty
string or on any non-hex character (a `ValueError` in Python). -/
def parseHex (cs : List Char) : Option Nat :=
  match cs with
  | [] => none
  | _ =>
    cs.foldl (fun acc c =>
      match acc, hexDigit c with
      | some n, some d => some (n * 16 + d)
      | _, _ => none) (some 0)

/-- Python slice `s[i:i+2]`. -/
def slice2 (cs : List Char) (i : Nat) : List Char :=
  (cs.drop i).take 2

/-- `TikTokVideoGenerator._hex_to_rgb` (tiktok_generator.py lines 120-125):
strip leading `#`s, expand a 3-character form by doubling each character,
then parse the three 2-character slices at offsets 0, 2, 4. -/
def hex_to_rgb (s : String) : Option (Nat × Nat × Nat) :=
  let t := s.toList.dropWhile (· = '#')
  let t := if t.length = 3 then t.flatMap (fun c => [c, c]) else t
  match parseHex (slice2 t 0), parseHex (slice2 t 2), parseHex (slice2 t 4) with
  | some r, some g, some b => some (r, g, b)
  | _, _, _ => none

/-! ### Configuration model

The JSON config is a nested dict; each recognized key may be present or
absent.  `config["a"]["b"]` raises `KeyError` when either level is missing;
`config["a"].get("b", d)` falls back to the default. -/

structure RawVideoSettings where
  width : Option Nat := none
  height : Option Nat := none
  fps : Option Nat := none
  text_font_size : Option Nat := none
  text_color : Option String := none
  text_stroke_color : Option String := none
  text_stroke_width : Option Nat := none
  font_path : Option String := none
  background_color : Option String := none
  brand_text_color : Option String := none

structure RawTimingSettings where
  question_duration : Option ℚ := none
  pause_duration : Option ℚ := none
  hook_duration : Option ℚ := none

structure RawVoiceSettings where
  api_key : Option String := none
  voice_id : Option String := none

structure RawOutputSettings where
  output_dir : Option String := none
  output_filename : Option String := none

structure RawConfig where
  video_settings : Option RawVideoSettings := none
  timing_settings : Option RawTimingSettings := none
  voice_settings : Option RawVoiceSettings := none
  output_settings : Option RawOutputSettings := none

/-- `config[key]` on a dict: `KeyError` when absent. -/
def getKey {α : Type} (v : Option α) (key : String) : Except GenError α :=
  match v with
  | some a => Except.ok a
  | none => Except.error (GenError.keyError key)

/-- `_hex_to_rgb` called from `__init__`: a parse failure is a raised
`ValueError`. -/
def hexToRgbE (s : String) : Except GenError (Nat × Nat × Nat) :=
  match hex_to_rgb s with
  | some rgb => Except.ok rgb
  | none => Except.error (GenError.valueError "invalid hex color")

/-- The state built by `TikTokVideoGenerator.__init__`
(tiktok_generator.py lines 60-104). -/
structure Generator where
  config : RawConfig
  output_dir : String
  width : Nat
  height : Nat
  fps : Nat
  text_font_size : Nat
  text_color : String
  text_stroke_color : String
  text_stroke_width : Nat
  font_path : String
  bg_color_hex : String
  text_color_hex : String
  bg_color_rgb : Nat × Nat × Nat
  text_color_rgb : Nat × Nat × Nat
  question_duration : ℚ
  pause_duration : ℚ
  hook_duration : ℚ
  voice_id : String

/-- `TikTokVideoGenerator.__init__` (tiktok_generator.py lines 60-104),
after `_load_config` has produced the parsed dict `cfg`.  Key reads happen
in source order; the ElevenLabs client construction is wrapped in a bare
`except:` so a missing `api_key` does not raise there.  Each missing
required key raises `KeyError` before any TTS, image, or clip work (none of
which happens in `__init__`). -/
def initGenerator (cfg : RawConfig) : Except GenError Generator := do
  -- lines 70-74: try/except around ElevenLabs(...); never raises
  let outs ← getKey cfg.output_settings "output_settings"
  let output_dir ← getKey outs.output_dir "output_dir"          -- line 77
  let vs ← getKey cfg.video_settings "video_settings"
  let width ← getKey vs.width "width"                           -- line 81
  let height ← getKey vs.height "height"                        -- line 82
  let fps ← getKey vs.fps "fps"                                 -- line 83
  let text_font_size ← getKey vs.text_font_size "text_font_size"
  let text_color ← getKey vs.text_color "text_color"            -- line 85
  let text_stroke_color := vs.text_stroke_color.getD "black"
  let text_stroke_width := vs.text_stroke_width.getD 0
  let font_path := vs.font_path.getD "fonts/Renogare-Regular.ttf"
  let bg_color_hex := vs.background_color.getD "#dfe3fd"
  let text_color_hex := vs.brand_text_color.getD "#8b8d9b"
  let bg_color_rgb ← hexToRgbE bg_color_hex                     -- line 93
  let text_color_rgb ← hexToRgbE text_color_hex                 -- line 94
  let ts ← getKey cfg.timing_settings "timing_settings"
  let question_duration ← getKey ts.question_duration "question_duration"
  let pause_duration ← getKey ts.pause_duration "pause_duration"
  let hook_duration ← getKey ts.hook_duration "hook_duration"
  let vos ← getKey cfg.voice_settings "voice_settings"
  let voice_id ← getKey vos.voice_id "voice_id"                 -- line 100
  pure { config := cfg, output_dir, width, height, fps, text_font_size,
         text_color, text_stroke_color, text_stroke_width, font_path,
         bg_color_hex, text_color_hex, bg_color_rgb, text_color_rgb,
         question_duration, pause_duration, hook_duration, voice_id }

/-! ### Caption clips (`_text_clip`, tiktok_generator.py lines 186-206) -/

/-- The local `position_at_time` closure inside `_text_clip` (lines
197-202): for `t < 0.5` ease from a vertical offset of `start_offset = 60`
pixels (Python `int(...)` truncation on the interpolated offset), from
`t = 0.5` on sit at the target position. -/
def position_at_time (pos : Int × Int) (t : ℚ) : Int × Int :=
  if t < 1/2 then
    let progress := t / (1/2)
    (pos.1, pos.2 + pytrunc ((1 - progress) * 60))
  else pos

/-- A rendered caption: an `ImageClip` of the rasterized text with a
duration, a (possibly time-varying) position and fade lengths. -/
structure TextClipM where
  text : String
  duration : ℚ
  fontSize : Nat
  maxWidth : Nat
  posAt : ℚ → Int × Int
  fadeIn : ℚ
  fadeOut : ℚ

/-- `TikTokVideoGenerator._text_clip` (lines 186-206): renders `text`, then
either animates it (entrance from `+60` px, `fadein(0.4).fadeout(0.4)`) or
pins it at `pos` (the `pos = (int(pos[0]), int(pos[1]))` cast is the
identity here since positions are passed as integers). -/
def _text_clip (text : String) (duration : ℚ) (fontSize maxWidth : Nat)
    (pos : Int × Int) (animate : Bool) : TextClipM :=
  if animate then
    { text, duration, fontSize, maxWidth,
      posAt := position_at_time pos, fadeIn := 2/5, fadeOut := 2/5 }
  else
    { text, duration, fontSize, maxWidth,
      posAt := fun _ => pos, fadeIn := 0, fadeOut := 0 }

/-! ### Clip constructors -/

/-- Role of a clip in the timeline (both pipeline variants). -/
inductive Role where
  | intro
  | hook
  | share
  | question (i : Nat)
  | pause
  deriving Repr, DecidableEq

/-- One visual layer of a composite clip. -/
inductive Layer where
  | background (w h : Nat) (color : Nat × Nat × Nat)
  | image (size : Nat × Nat) (pos : Int × Int)
  | text (tc : TextClipM)

/-- A composed video clip: role tag, total duration, duration of the audio
attached by `set_audio` (if any), and its layer stack in composite order. -/
structure Clip where
  role : Role
  duration : ℚ
  audioDuration : Option ℚ
  layers : List Layer

/-- `create_hook_clip` (tiktok_generator.py lines 458-501): duration is
exactly the narration audio's duration, layers are brand background plus
the animated hook caption; the narration audio is attached. -/
def create_hook_clip (g : Generator) (hook : String) (audioDuration : ℚ) : Clip :=
  let duration := audioDuration
  let text_width := pytrunc ((g.width : ℚ) * (9/10))
  let tc := _text_clip hook duration g.text_font_size text_width.toNat
    (pytrunc ((g.width : ℚ)/2 - (text_width : ℚ)/2),
     pytrunc ((g.height : ℚ)/2 - (g.text_font_size : ℚ))) true
  { role := Role.hook, duration,
    audioDuration := some audioDuration,
    layers := [Layer.background g.width g.height g.bg_color_rgb, Layer.text tc] }

/-- The square center-crop box computed by `create_resized_clip` inside
`create_question_clip` (tiktok_generator.py lines 412-421), as PIL box
`(left, top, right, bottom)`: identity when `w = h`, horizontal crop
`(left, 0, left + h, h)` with `left = (w - h) // 2` when `w > h`, vertical
crop `(0, top, w, top + w)` with `top = (h - w) // 2` otherwise. -/
def cropBox (w h : Nat) : Nat × Nat × Nat × Nat :=
  if w = h then (0, 0, w, h)
  else if w > h then
    let left := (w - h) / 2
    (left, 0, left + h, h)
  else
    let top := (h - w) / 2
    (0, top, w, top + w)

/-- What `create_resized_clip` (lines 407-431) does to one source image of
size `w × h`: convert to RGB, center-crop to a square via `cropBox`, resize
to `new_size × new_size` with LANCZOS, and wrap in an `ImageClip` of the
surrounding question clip's duration. -/
structure ResizedClip where
  mode : String
  box : Nat × Nat × Nat × Nat
  outSize : Nat × Nat
  duration : ℚ

/-- `create_resized_clip` (tiktok_generator.py lines 407-431). -/
def create_resized_clip (w h new_size : Nat) (duration : ℚ) : ResizedClip :=
  { mode := "RGB", box := cropBox w h,
    outSize := (new_size, new_size), duration }

/-- `create_question_clip` (tiktok_generator.py lines 355-456): duration is
the narration audio's duration plus a fixed 3-second trailing pad; the
composite stacks background, the two square-cropped images, the "Or"
caption and the question caption, and the narration audio is attached.
`imgSize` is the filesystem oracle giving the dimensions of the image
stored at a path (`Image.open(...).size`). -/
def create_question_clip (g : Generator) (imgSize : String → Nat × Nat)
    (i : Nat) (question : String)
    (image_path_top image_path_bottom : String) (audioDuration : ℚ) : Clip :=
  let duration := audioDuration + 3
  let imgTop := imgSize image_path_top
  let imgBottom := imgSize image_path_bottom
  let margin_x : Nat := 90
  let max_text_width := g.width - 2 * margin_x
  let question_font_size := pytrunc ((g.text_font_size : ℚ) * (11/10))
  let or_font_size := pytrunc ((g.text_font_size : ℚ) * (9/10))
  let question_tc := _text_clip question duration question_font_size.toNat
    max_text_width
    (pytrunc ((g.width : ℚ)/2 - (max_text_width : ℚ)/2), 100) true
  let or_tc := _text_clip "Or" duration or_font_size.toNat 200
    (pytrunc ((g.width : ℚ)/2 - 50), 1000) true
  let img_width := g.width - 2 * margin_x
  let img_size := min img_width 900
  let topR := create_resized_clip imgTop.1 imgTop.2 img_size duration
  let bottomR := create_resized_clip imgBottom.1 imgBottom.2 img_size duration
  let y_top_img := pytrunc (100 + (question_font_size : ℚ) * (11/5))
  let y_or := y_top_img + (img_size : Int) + 30
  let y_bottom_img := y_or + pytrunc ((or_font_size : ℚ) * (8/5))
  { role := Role.question i, duration,
    audioDuration := some audioDuration,
    layers :=
      [Layer.background g.width g.height g.bg_color_rgb,
       Layer.image topR.outSize (((g.width : Int) - img_size).fdiv 2, y_top_img),
       Layer.text or_tc,
       Layer.image bottomR.outSize (((g.width : Int) - img_size).fdiv 2, y_bottom_img),
       Layer.text question_tc] }

/-- `create_intro_clip` (tiktok_generator.py lines 503-532): fixed 2.8 s
duration, background plus three animated captions, no audio. -/
def create_intro_clip (g : Generator) (theme : String) : Clip :=
  let duration : ℚ := 14/5
  let title_width := pytrunc ((g.width : ℚ) * (9/10))
  let title := _text_clip "Couples Quiz!" duration
    (pytrunc ((g.text_font_size : ℚ) * (6/5))).toNat title_width.toNat
    (pytrunc ((g.width : ℚ)/2 - (title_width : ℚ)/2), 220) true
  let themeLabel := _text_clip "Today's theme is:" duration g.text_font_size
    title_width.toNat
    (pytrunc ((g.width : ℚ)/2 - (title_width : ℚ)/2), 420) true
  let themeText := _text_clip theme duration
    (pytrunc ((g.text_font_size : ℚ) * (11/10))).toNat title_width.toNat
    (pytrunc ((g.width : ℚ)/2 - (title_width : ℚ)/2), 560) true
  { role := Role.intro, duration, audioDuration := none,
    layers := [Layer.background g.width g.height g.bg_color_rgb,
               Layer.text title, Layer.text themeLabel, Layer.text themeText] }

/-- `create_share_clip` (tiktok_generator.py lines 534-546): fixed 2.4 s
duration, background plus one animated caption, no audio. -/
def create_share_clip (g : Generator) : Clip :=
  let duration : ℚ := 12/5
  let text_width := pytrunc ((g.width : ℚ) * (9/10))
  let tc := _text_clip "save and share this with them!" duration
    (pytrunc ((g.text_font_size : ℚ) * (21/20))).toNat text_width.toNat
    (pytrunc ((g.width : ℚ)/2 - (text_width : ℚ)/2),
     pytrunc ((g.height : ℚ)/2 - (g.text_font_size : ℚ))) true
  { role := Role.share, duration, audioDuration := none,
    layers := [Layer.background g.width g.height g.bg_color_rgb, Layer.text tc] }

/-! ### `resize_image_for_tiktok` (tiktok_generator.py lines 208-259, and
identically main.py lines 56-107) -/

/-- The `(new_width, new_height)` the source computes for an input of size
`w × h` against target `W × H`: when the input ratio exceeds the target
ratio, `new_height = H` and `new_width = int(H * img_ratio)`; otherwise
`new_width = W` and `new_height = int(W / img_ratio)`. -/
def scaledDims (W H w h : Nat) : Nat × Nat :=
  let img_ratio : ℚ := (w : ℚ) / (h : ℚ)
  let target_ratio : ℚ := (W : ℚ) / (H : ℚ)
  if img_ratio > target_ratio then
    ((pytrunc ((H : ℚ) * img_ratio)).toNat, H)
  else
    (W, (pytrunc ((W : ℚ) / img_ratio)).toNat)

/-- Result of `resize_image_for_tiktok`: a canvas created by
`Image.new('RGB', (W, H), (0,0,0))` with the rescaled input pasted at
`((W - new_width) // 2, (H - new_height) // 2)` (Python floor division on
possibly negative ints). -/
structure ResizeResult where
  canvas : Nat × Nat
  canvasColor : Nat × Nat × Nat
  pastedSize : Nat × Nat
  pastePos : Int × Int

/-- `resize_image_for_tiktok` on an input image of size `w × h`. -/
def resize_image_for_tiktok (g : Generator) (w h : Nat) : ResizeResult :=
  let (nw, nh) := scaledDims g.width g.height w h
  { canvas := (g.width, g.height), canvasColor := (0, 0, 0),
    pastedSize := (nw, nh),
    pastePos := (((g.width : Int) - (nw : Int)).fdiv 2,
                 ((g.height : Int) - (nh : Int)).fdiv 2) }

/-! ### `generate_video`, newer pipeline (tiktok_generator.py lines 548-633)

The TTS oracle `dur` gives the narration duration the external service
produces for a text.  The trace records every text passed to
`generate_tts_audio` and the role of every clip composed, in order. -/

/-- Trace of effectful work done by a `generate_video` run before it
returned or raised. -/
structure Trace where
  tts : List String
  composed : List Role
  deriving Repr, DecidableEq

def Trace.empty : Trace := ⟨[], []⟩

/-- Resolution of the output filename (lines 572-574): an explicit argument
wins, otherwise `self.config["output_settings"]["output_filename"]` is read
(raising `KeyError` when missing). -/
def resolve_output_filename (g : Generator) (ofn : Option String) :
    Except GenError String :=
  match ofn with
  | some f => Except.ok f
  | none => do
    let outs ← getKey g.config.output_settings "output_settings"
    getKey outs.output_filename "output_filename"

/-- `TikTokVideoGenerator.generate_video` (tiktok_generator.py lines
548-633).  Control flow in source order: resolve the output filename,
validate the count match (raising `ValueError` before any TTS call or clip
composition), then compose intro, synthesize and compose hook, compose
share, and for each question synthesize then compose.  Returns the trace
together with either the raised error or the composed clip list and output
path. -/
def generate_video (g : Generator) (dur : String → ℚ)
    (imgSize : String → Nat × Nat)
    (questions : List String) (theme hook : String)
    (question_image_pairs : List (String × String))
    (ofn : Option String) :
    Trace × Except GenError (List Clip × String) :=
  match resolve_output_filename g ofn with
  | Except.error e => (Trace.empty, Except.error e)
  | Except.ok output_filename =>
    if questions.length ≠ question_image_pairs.length then
      (Trace.empty, Except.error (GenError.valueError
        "Number of questions must match number of image pairs"))
    else
      let introClip := create_intro_clip g theme
      let hookClip := create_hook_clip g hook (dur hook)
      let shareClip := create_share_clip g
      let qItems := (questions.zip question_image_pairs).enum
      let qClips := qItems.map (fun p =>
        create_question_clip g imgSize p.1 p.2.1 p.2.2.1 p.2.2.2 (dur p.2.1))
      let clips := introClip :: hookClip :: shareClip :: qClips
      ({ tts := hook :: qItems.map (fun p => p.2.1),
         composed := clips.map (fun c => c.role) },
       Except.ok (clips, g.output_dir ++ "/" ++ output_filename))

/-- `concatenate_videoclips(clips, method="compose")` plays the clips one
after another: the total timeline duration is the sum of clip durations. -/
def concatenatedDuration (clips : List Clip) : ℚ :=
  (clips.map (fun c => c.duration)).sum

/-! ### The older simple pipeline (main.py lines 24-385)

Settings are hardcoded in `__init__` (main.py lines 37-54); clips need only
role and duration for the claims.  The old `create_question_clip` (lines
235-268) sets duration to exactly the narration length (no pad); the old
`create_pause_clip` (lines 206-233) uses the fixed `pause_duration = 2`. -/

structure OClip where
  role : Role
  duration : ℚ
  deriving Repr, DecidableEq

/-- Old `create_hook_clip` (main.py lines 270-305). -/
def old_create_hook_clip (audioDuration : ℚ) : OClip :=
  { role := Role.hook, duration := audioDuration }

/-- Old `create_question_clip` (main.py lines 235-268). -/
def old_create_question_clip (i : Nat) (audioDuration : ℚ) : OClip :=
  { role := Role.question i, duration := audioDuration }

/-- Old `create_pause_clip` (main.py lines 206-233). -/
def old_create_pause_clip (duration : ℚ) : OClip :=
  { role := Role.pause, duration }

/-- Old `TikTokVideoGenerator.generate_video` (main.py lines 307-385):
validate the question/image count match first (raising `ValueError` before
any TTS call), then — only when `hooks` is nonempty — synthesize and append
the hook clip for `hooks[0]`, then for each question synthesize and append
its clip, appending a pause clip after every question except the last. -/
def old_generate_video (dur : String → ℚ) (questions hooks image_paths : List String) :
    Trace × Except GenError (List OClip) :=
  if questions.length ≠ image_paths.length then
    (Trace.empty, Except.error (GenError.valueError
      "Number of questions must match number of images"))
  else
    let hookTts : List String := match hooks with
      | [] => []
      | h :: _ => [h]
    let hookClips : List OClip := match hooks with
      | [] => []
      | h :: _ => [old_create_hook_clip (dur h)]
    let n := questions.length
    let qItems := (questions.zip image_paths).enum
    let qClips := qItems.flatMap (fun p =>
      old_create_question_clip p.1 (dur p.2.1) ::
        (if p.1 < n - 1 then [old_create_pause_clip 2] else []))
    let clips := hookClips ++ qClips
    ({ tts := hookTts ++ qItems.map (fun p => p.2.1),
       composed := clips.map (fun c => c.role) },
     Except.ok clips)

/-! ### CLI image pairing (`main()` in tiktok_generator.py lines 676-743) -/

/-- The pairing comprehension
`[(image_paths[i], image_paths[i+1]) for i in range(0, len(image_paths), 2)]`
(line 711) on a list of even length. -/
def pairUp {α : Type} : List α → List (α × α)
  | a :: b :: rest => (a, b) :: pairUp rest
  | _ => []

/-- The `--images` handling block of `main()` (tiktok_generator.py lines
707-712): when an explicit image list is supplied, its length must be
exactly twice the question count, else a `ValueError` is raised before
`generate_video` runs; on success consecutive images are paired in order. -/
def cli_pair_images (questions image_paths : List String) :
    Except GenError (List (String × String)) :=
  if image_paths.length ≠ questions.length * 2 then
    Except.error (GenError.valueError
      "expected 2 images per question")
  else
    Except.ok (pairUp image_paths)

/-- The tail of `main()` (tiktok_generator.py lines 707-728) for an
explicit `--images` list: pair the images, then run `generate_video` on the
pairs.  A pairing `ValueError` propagates before `generate_video` runs, so
the trace is empty. -/
def cli_run (g : Generator) (dur : String → ℚ) (imgSize : String → Nat × Nat)
    (questions : List String) (theme hook : String)
    (image_paths : List String) (ofn : Option String) :
    Trace × Except GenError (List Clip × String) :=
  match cli_pair_images questions image_paths with
  | Except.error e => (Trace.empty, Except.error e)
  | Except.ok pairs => generate_video g dur imgSize questions theme hook pairs ofn

/-! ### A concrete generator state, used to evaluate the theorems on
concrete inputs.  Field values follow the repository's defaults (TikTok
dimensions 1080×1920, the hardcoded brand colors, the sample timing). -/

def gTest : Generator where
  config := { output_settings := some { output_dir := some "output" } }
  output_dir := "output"
  width := 1080
  height := 1920
  fps := 30
  text_font_size := 80
  text_color := "white"
  text_stroke_color := "black"
  text_stroke_width := 0
  font_path := "fonts/Renogare-Regular.ttf"
  bg_color_hex := "#dfe3fd"
  text_color_hex := "#8b8d9b"
  bg_color_rgb := (223, 227, 253)
  text_color_rgb := (139, 141, 155)
  question_duration := 5
  pause_duration := 2
  hook_duration := 4
  voice_id := "pNInz6obpgDQGcFmaJgB"

/-! ### Helper lemmas -/

theorem hexDigit_le_15 {c : Char} {v : Nat} (h : hexDigit c = some v) :
    v ≤ 15 := by
  unfold hexDigit at h
  repeat' split at h
  all_goals first
    | exact Option.noConfusion h
    | (injection h with hv; omega)

theorem parseHex_pair {c1 c2 : Char} {v1 v2 : Nat}
    (h1 : hexDigit c1 = some v1) (h2 : hexDigit c2 = some v2) :
    parseHex [c1, c2] = some (v1 * 16 + v2) := by
  simp [parseHex, h1, h2]

theorem pairUp_getD {α : Type} (d : α) :
    ∀ (l : List α) (i : Nat), 2 * i + 1 < l.length →
      (pairUp l).getD i (d, d) = (l.getD (2 * i) d, l.getD (2 * i + 1) d)
  | [], i, h => by simp at h
  | [a], i, h => by simp at h
  | a :: b :: rest, 0, _ => by simp [pairUp]
  | a :: b :: rest, i + 1, h => by
    have hlt : 2 * i + 1 < rest.length := by
      simp only [List.length_cons] at h; omega
    have ih := pairUp_getD d rest i hlt
    have e1 : 2 * (i + 1) = (2 * i + 1) + 1 := by omega
    have e2 : 2 * (i + 1) + 1 = (2 * i + 1) + 1 + 1 := by omega
    simp only [pairUp, List.getD_cons_succ, e1, e2, ih]

/-- The per-question clips of the newer `generate_video` carry roles
`question 0, …, question (n-1)` in input order. -/
theorem question_clips_roles (g : Generator) (dur : String → ℚ)
    (imgSize : String → Nat × Nat) (questions : List String)
    (pairs : List (String × String)) (h : questions.length = pairs.length) :
    List.map (fun c => c.role)
      (((questions.zip pairs).enum).map (fun p =>
        create_question_clip g imgSize p.1 p.2.1 p.2.2.1 p.2.2.2 (dur p.2.1))) =
      (List.range questions.length).map Role.question := by
  rw [List.map_map]
  have h1 : ((fun c => c.role) ∘ fun (p : Nat × String × String × String) =>
      create_question_clip g imgSize p.1 p.2.1 p.2.2.1 p.2.2.2 (dur p.2.1)) =
      (Role.question ∘ Prod.fst) := rfl
  rw [h1, ← List.map_map, List.enum_map_fst, List.length_zip, h]
  simp

/-- The per-question clips of the newer `generate_video` have durations
`dur q + 3` for the questions `q` in input order. -/
theorem question_clips_durations (g : Generator) (dur : String → ℚ)
    (imgSize : String → Nat × Nat) (questions : List String)
    (pairs : List (String × String)) (h : questions.length = pairs.length) :
    List.map (fun c => c.duration)
      (((questions.zip pairs).enum).map (fun p =>
        create_question_clip g imgSize p.1 p.2.1 p.2.2.1 p.2.2.2 (dur p.2.1))) =
      questions.map (fun q => dur q + 3) := by
  rw [List.map_map]
  have h1 : ((fun c => c.duration) ∘ fun (p : Nat × String × String × String) =>
      create_question_clip g imgSize p.1 p.2.1 p.2.2.1 p.2.2.2 (dur p.2.1)) =
      ((fun q : String × String × String => dur q.1 + 3) ∘ Prod.snd) := rfl
  rw [h1, ← List.map_map, List.enum_map_snd]
  have h2 : (fun q : String × String × String => dur q.1 + 3) =
      ((fun q : String => dur q + 3) ∘ Prod.fst) := rfl
  rw [h2, ← List.map_map, List.map_fst_zip _ _ h.le]

/-- The texts the newer `generate_video` sends to TTS for the questions are
exactly the questions in input order. -/
theorem question_tts_texts (questions : List String)
    (pairs : List (String × String)) (h : questions.length = pairs.length) :
    ((questions.zip pairs).enum).map
        (fun (p : Nat × String × String × String) => p.2.1) =
      questions := by
  have h1 : (fun (p : Nat × String × String × String) => p.2.1) =
      ((Prod.fst : String × String × String → String) ∘ Prod.snd) := rfl
  rw [h1, ← List.map_map, List.enum_map_snd, List.map_fst_zip _ _ h.le]

/-- A dict access succeeds exactly when the key is present. -/
theorem getKey_eq_ok {α : Type} (v : Option α) (key : String) (a : α) :
    getKey v key = Except.ok a ↔ v = some a := by
  cases v <;> simp [getKey]

/-- Success of `initGenerator` forces the presence of every required
config key that the claims list for `__init__`. -/
theorem initGenerator_ok_keys (cfg : RawConfig) (g : Generator)
    (h : initGenerator cfg = Except.ok g) :
    (cfg.output_settings.bind RawOutputSettings.output_dir).isSome ∧
    (cfg.video_settings.bind RawVideoSettings.width).isSome ∧
    (cfg.timing_settings.bind RawTimingSettings.question_duration).isSome ∧
    (cfg.voice_settings.bind RawVoiceSettings.voice_id).isSome := by
  unfold initGenerator at h
  simp only [bind, Except.bind] at h
  repeat' split at h
  all_goals first
    | exact Except.noConfusion h
    | simp_all [getKey_eq_ok]

/-- Roles of the question/pause clip run built by the older
`generate_video`. -/
theorem old_question_clips_roles (dur : String → ℚ)
    (questions image_paths : List String)
    (h : questions.length = image_paths.length) :
    List.map (fun c => c.role)
      (((questions.zip image_paths).enum).flatMap (fun p =>
        old_create_question_clip p.1 (dur p.2.1) ::
          (if p.1 < questions.length - 1 then [old_create_pause_clip 2] else []))) =
      (List.range questions.length).flatMap (fun i =>
        Role.question i ::
          (if i < questions.length - 1 then [Role.pause] else [])) := by
  rw [List.map_flatMap]
  have h1 : (fun (p : Nat × String × String) =>
      List.map (fun c => c.role) (old_create_question_clip p.1 (dur p.2.1) ::
        (if p.1 < questions.length - 1 then [old_create_pause_clip 2] else []))) =
      fun p => Role.question p.1 ::
        (if p.1 < questions.length - 1 then [Role.pause] else []) := by
    funext p
    by_cases hp : p.1 < questions.length - 1 <;>
      simp [hp, old_create_question_clip, old_create_pause_clip]
  rw [h1]
  have h2 : (fun (p : Nat × String × String) =>
      Role.question p.1 ::
        (if p.1 < questions.length - 1 then [Role.pause] else [])) =
      fun p => (fun i => Role.question i ::
        (if i < questions.length - 1 then [Role.pause] else [])) (Prod.fst p) := rfl
  have h3 := List.flatMap_map (Prod.fst : Nat × String × String → Nat)
    (fun i => Role.question i ::
      (if i < questions.length - 1 then [Role.pause] else []))
    ((questions.zip image_paths).enum)
  rw [h2, ← h3, List.enum_map_fst, List.length_zip, h]
  simp

/-- Full characterization of a successful run of the newer
`generate_video`: the TTS trace is the hook followed by the questions, and
the clip list is intro, hook, share, then the question clips in input
order. -/
theorem generate_video_ok (g : Generator) (dur : String → ℚ)
    (imgSize : String → Nat × Nat) (questions : List String)
    (theme hook : String) (pairs : List (String × String))
    (ofn : Option String) (f : String)
    (hf : resolve_output_filename g ofn = Except.ok f)
    (h : questions.length = pairs.length) :
    generate_video g dur imgSize questions theme hook pairs ofn =
      ({ tts := hook :: questions,
         composed := Role.intro :: Role.hook :: Role.share ::
           (List.range questions.length).map Role.question },
       Except.ok
         (create_intro_clip g theme ::
            create_hook_clip g hook (dur hook) ::
            create_share_clip g ::
            ((questions.zip pairs).enum).map (fun p =>
              create_question_clip g imgSize p.1 p.2.1 p.2.2.1 p.2.2.2 (dur p.2.1)),
          g.output_dir ++ "/" ++ f)) := by
  have htts := question_tts_texts questions pairs h
  have hroles := question_clips_roles g dur imgSize questions pairs h
  unfold generate_video
  split
  · rename_i e heq
    rw [hf] at heq
    exact absurd heq (by simp)
  · rename_i out heq
    rw [hf] at heq
    injection heq with hout
    subst hout
    rw [if_neg (by omega)]
    simp only [List.map_cons, Prod.mk.injEq, Trace.mk.injEq]
    refine ⟨⟨congrArg (hook :: ·) htts, ?_⟩, trivial⟩
    rw [hroles]
    rfl

/-- Successful run of the older `generate_video` when the hooks list is
nonempty: hook clip first, then the question clips in input order with a
pause clip after every question except the last. -/
theorem old_generate_video_ok (dur : String → ℚ)
    (questions image_paths : List String) (hh : String) (htl : List String)
    (h : questions.length = image_paths.length) :
    ∃ clips,
      (old_generate_video dur questions (hh :: htl) image_paths).2 =
        Except.ok clips ∧
      clips.map (fun c => c.role) =
        Role.hook :: (List.range questions.length).flatMap (fun i =>
          Role.question i ::
            (if i < questions.length - 1 then [Role.pause] else [])) := by
  unfold old_generate_video
  rw [if_neg (by omega)]
  refine ⟨_, rfl, ?_⟩
  simp only [List.singleton_append, List.map_cons]
  exact congrArg (Role.hook :: ·)
    (old_question_clips_roles dur questions image_paths h)

/-! ### Claim theorems -/

/-- C1: whenever the question list and the image-pair list have different
lengths, `generate_video` raises (a `ValueError` in the newer pipeline,
given that the output filename itself resolves) with no TTS synthesis call
made at the moment of the raise (the trace is empty); when the lengths are
equal the validation does not raise and the run completes.  Both pipeline
variants are covered: the newer one from tiktok_generator.py and the older
one from main.py. -/
theorem c1_count_mismatch_fails_before_tts (g : Generator)
    (dur : String → ℚ) (imgSize : String → Nat × Nat)
    (questions : List String) (theme hook : String)
    (pairs : List (String × String)) (ofn : Option String) (f : String)
    (hooks image_paths : List String)
    (hf : resolve_output_filename g ofn = Except.ok f) :
    (questions.length ≠ pairs.length →
      generate_video g dur imgSize questions theme hook pairs ofn =
        (Trace.empty, Except.error (GenError.valueError
          "Number of questions must match number of image pairs"))) ∧
    (questions.length = pairs.length →
      ∃ tr clips path,
        generate_video g dur imgSize questions theme hook pairs ofn =
          (tr, Except.ok (clips, path))) ∧
    (questions.length ≠ image_paths.length →
      old_generate_video dur questions hooks image_paths =
        (Trace.empty, Except.error (GenError.valueError
          "Number of questions must match number of images"))) ∧
    (questions.length = image_paths.length →
      ∃ tr clips,
        old_generate_video dur questions hooks image_paths =
          (tr, Except.ok clips)) := by
  refine ⟨?_, ?_, ?_, ?_⟩
  · intro hne
    unfold generate_video
    split
    · rename_i e heq
      rw [hf] at heq
      exact absurd heq (by simp)
    · rename_i out heq
      rw [if_pos hne]
  · intro heq
    exact ⟨_, _, _, generate_video_ok g dur imgSize questions theme hook
      pairs ofn f hf heq⟩
  · intro hne
    unfold old_generate_video
    rw [if_pos hne]
  · intro heq
    unfold old_generate_video
    rw [if_neg (by omega)]
    exact ⟨_, _, rfl⟩

/-- Witness for C1: one question against zero image pairs fails with the
`ValueError` and an empty trace in the newer pipeline (and in the older
one), while matching counts succeed. -/
theorem c1_count_mismatch_fails_before_tts_witness :
    generate_video gTest (fun _ => 1) (fun _ => (1080, 1080)) ["q1"] "t" "h"
        [] (some "out.mp4") =
      (Trace.empty, Except.error (GenError.valueError
        "Number of questions must match number of image pairs")) ∧
    old_generate_video (fun _ => 1) ["q1"] ["h"] [] =
      (Trace.empty, Except.error (GenError.valueError
        "Number of questions must match number of images")) :=
  ⟨(c1_count_mismatch_fails_before_tts gTest (fun _ => 1)
      (fun _ => (1080, 1080)) ["q1"] "t" "h" [] (some "out.mp4") "out.mp4"
      ["h"] [] rfl).1 (by decide),
   (c1_count_mismatch_fails_before_tts gTest (fun _ => 1)
      (fun _ => (1080, 1080)) ["q1"] "t" "h" [] (some "out.mp4") "out.mp4"
      ["h"] [] rfl).2.2.1 (by decide)⟩

/-- C2: for every narration duration `d`, `create_question_clip` builds a
clip of duration exactly `d + 3.0` (the fixed trailing pad) and
`create_hook_clip` builds a clip of duration exactly `d` with no pad,
independently of the question text, hook text, images or generator
settings. -/
theorem c2_clip_duration_from_narration (g : Generator)
    (imgSize : String → Nat × Nat) (i : Nat)
    (question hook imgA imgB : String) (d : ℚ) :
    (create_question_clip g imgSize i question imgA imgB d).duration =
      d + 3 ∧
    (create_hook_clip g hook d).duration = d :=
  ⟨rfl, rfl⟩

/-- Counterexample to C3 as stated: in the older simple pipeline the hook
clip is only appended when the hooks list is nonempty (main.py line 336
`if hooks:`).  With a valid input of one question, one image and an empty
hooks list, the clip list is a single question clip — it does not start
with a hook clip as the claim asserts for every valid input. -/
theorem c3_old_pipeline_empty_hooks_counterexample :
    (old_generate_video (fun _ => 1) ["q"] [] ["img"]).2 =
      Except.ok [{ role := Role.question 0, duration := 1 }] ∧
    Role.question 0 ≠ Role.hook := by
  exact ⟨rfl, by decide⟩

/-- C3 (amended): for every valid input the newer pipeline's clip list is
exactly intro, hook, share, then the question clips in input order with no
pause clips; the older simple pipeline — *when its hooks list is
nonempty* — produces the hook clip, then the question clips in input order
with one pause clip after every question except the last. -/
theorem c3_timeline_order (g : Generator) (dur : String → ℚ)
    (imgSize : String → Nat × Nat) (questions : List String)
    (theme hook : String) (pairs : List (String × String))
    (ofn : Option String) (f : String) (hh : String) (htl : List String)
    (image_paths : List String)
    (hf : resolve_output_filename g ofn = Except.ok f)
    (h : questions.length = pairs.length)
    (hold : questions.length = image_paths.length) :
    (∃ clips path,
      generate_video g dur imgSize questions theme hook pairs ofn =
        ({ tts := hook :: questions,
           composed := Role.intro :: Role.hook :: Role.share ::
             (List.range questions.length).map Role.question },
         Except.ok (clips, path)) ∧
      clips.map (fun c => c.role) =
        Role.intro :: Role.hook :: Role.share ::
          (List.range questions.length).map Role.question) ∧
    (∃ clips,
      (old_generate_video dur questions (hh :: htl) image_paths).2 =
        Except.ok clips ∧
      clips.map (fun c => c.role) =
        Role.hook :: (List.range questions.length).flatMap (fun i =>
          Role.question i ::
            (if i < questions.length - 1 then [Role.pause] else []))) := by
  constructor
  · refine ⟨_, _, generate_video_ok g dur imgSize questions theme hook
      pairs ofn f hf h, ?_⟩
    simp only [List.map_cons]
    rw [question_clips_roles g dur imgSize questions pairs h]
    rfl
  · exact old_generate_video_ok dur questions image_paths hh htl hold

/-- Witness for C3 (amended) at a concrete two-question input. -/
theorem c3_timeline_order_witness :
    (∃ clips path,
      generate_video gTest (fun _ => 1) (fun _ => (1080, 1080))
          ["a", "b"] "t" "h" [("i1", "i2"), ("i3", "i4")] (some "o.mp4") =
        ({ tts := "h" :: ["a", "b"],
           composed := Role.intro :: Role.hook :: Role.share ::
             (List.range (["a", "b"] : List String).length).map Role.question },
         Except.ok (clips, path)) ∧
      clips.map (fun c => c.role) =
        Role.intro :: Role.hook :: Role.share ::
          (List.range (["a", "b"] : List String).length).map Role.question) ∧
    (∃ clips,
      (old_generate_video (fun _ => 1) ["a", "b"] ["h"] ["p1", "p2"]).2 =
        Except.ok clips ∧
      clips.map (fun c => c.role) =
        Role.hook ::
          (List.range (["a", "b"] : List String).length).flatMap (fun i =>
            Role.question i ::
              (if i < (["a", "b"] : List String).length - 1 then
                [Role.pause] else []))) :=
  c3_timeline_order gTest (fun _ => 1) (fun _ => (1080, 1080)) ["a", "b"]
    "t" "h" [("i1", "i2"), ("i3", "i4")] (some "o.mp4") "o.mp4" "h" []
    ["p1", "p2"] rfl rfl rfl

/-- C4: for the end-to-end run with 3 questions and 3 image pairs (6
images), 1 hook and 1 theme, the concatenated timeline's total duration is
intro (2.8 s) + hook narration + share (2.4 s) + Σ over questions of
(narration + 3.0 s pad), and the clips appear in the order intro, hook,
share, question 1, question 2, question 3. -/
theorem c4_end_to_end_duration (g : Generator) (dur : String → ℚ)
    (imgSize : String → Nat × Nat) (questions : List String)
    (theme hook : String) (pairs : List (String × String))
    (ofn : Option String) (f : String)
    (hf : resolve_output_filename g ofn = Except.ok f)
    (h3 : questions.length = 3) (hp : pairs.length = 3) :
    ∃ clips,
      (generate_video g dur imgSize questions theme hook pairs ofn).2 =
        Except.ok (clips, g.output_dir ++ "/" ++ f) ∧
      concatenatedDuration clips =
        14/5 + dur hook + 12/5 +
          (questions.map (fun q => dur q + 3)).sum ∧
      clips.map (fun c => c.role) =
        [Role.intro, Role.hook, Role.share,
         Role.question 0, Role.question 1, Role.question 2] := by
  have h : questions.length = pairs.length := h3.trans hp.symm
  have hok := generate_video_ok g dur imgSize questions theme hook pairs
    ofn f hf h
  refine ⟨create_intro_clip g theme ::
      create_hook_clip g hook (dur hook) ::
      create_share_clip g ::
      ((questions.zip pairs).enum).map (fun p =>
        create_question_clip g imgSize p.1 p.2.1 p.2.2.1 p.2.2.2 (dur p.2.1)),
    ?_, ?_, ?_⟩
  · rw [hok]
  · unfold concatenatedDuration
    simp only [List.map_cons, List.sum_cons]
    rw [question_clips_durations g dur imgSize questions pairs h]
    show (14/5 : ℚ) + (dur hook +
        ((12/5 : ℚ) + (questions.map (fun q => dur q + 3)).sum)) =
      14/5 + dur hook + 12/5 + (questions.map (fun q => dur q + 3)).sum
    ring
  · simp only [List.map_cons]
    rw [question_clips_roles g dur imgSize questions pairs h, h3]
    rfl

/-- Witness for C4: three questions of narration 1 s each and hook
narration 1 s give a total of 2.8 + 1 + 2.4 + 3·(1+3) = 18.2 seconds in
the stated order. -/
theorem c4_end_to_end_duration_witness :
    ∃ clips,
      (generate_video gTest (fun _ => 1) (fun _ => (1080, 1080))
          ["a", "b", "c"] "t" "h"
          [("i1", "i2"), ("i3", "i4"), ("i5", "i6")] (some "o.mp4")).2 =
        Except.ok (clips, gTest.output_dir ++ "/" ++ "o.mp4") ∧
      concatenatedDuration clips =
        14/5 + (fun _ : String => (1 : ℚ)) "h" + 12/5 +
          ((["a", "b", "c"] : List String).map
            (fun q => (fun _ : String => (1 : ℚ)) q + 3)).sum ∧
      clips.map (fun c => c.role) =
        [Role.intro, Role.hook, Role.share,
         Role.question 0, Role.question 1, Role.question 2] :=
  c4_end_to_end_duration gTest (fun _ => 1) (fun _ => (1080, 1080))
    ["a", "b", "c"] "t" "h" [("i1", "i2"), ("i3", "i4"), ("i5", "i6")]
    (some "o.mp4") "o.mp4" rfl rfl rfl

/-- C5: a config missing a required key — `video_settings.width`,
`timing_settings.question_duration`, `voice_settings.voice_id`,
`output_settings.output_dir` (each read by `__init__`), or
`output_settings.output_filename` when no explicit filename is given (read
by `generate_video` before anything else) — makes the run raise before any
TTS synthesis, image processing or clip composition: `__init__` fails
before a generator exists, and the `output_filename` read fails with a
completely empty work trace. -/
theorem c5_missing_key_fails_before_work (cfg : RawConfig) :
    (cfg.video_settings.bind RawVideoSettings.width = none →
      ∃ e, initGenerator cfg = Except.error e) ∧
    (cfg.timing_settings.bind RawTimingSettings.question_duration = none →
      ∃ e, initGenerator cfg = Except.error e) ∧
    (cfg.voice_settings.bind RawVoiceSettings.voice_id = none →
      ∃ e, initGenerator cfg = Except.error e) ∧
    (cfg.output_settings.bind RawOutputSettings.output_dir = none →
      ∃ e, initGenerator cfg = Except.error e) ∧
    (∀ (g : Generator) (dur : String → ℚ) (imgSize : String → Nat × Nat)
        (questions : List String) (theme hook : String)
        (pairs : List (String × String)),
      g.config.output_settings.bind RawOutputSettings.output_filename =
        none →
      ∃ e, generate_video g dur imgSize questions theme hook pairs none =
        (Trace.empty, Except.error e)) := by
  have key : ∀ {α : Type} (miss : RawConfig → Option α),
      (∀ g, initGenerator cfg = Except.ok g → (miss cfg).isSome) →
      miss cfg = none → ∃ e, initGenerator cfg = Except.error e := by
    intro α miss hok hnone
    cases hinit : initGenerator cfg with
    | error e => exact ⟨e, rfl⟩
    | ok g =>
      have := hok g hinit
      rw [hnone] at this
      exact absurd this (by simp)
  refine ⟨?_, ?_, ?_, ?_, ?_⟩
  · exact key (fun c => c.video_settings.bind RawVideoSettings.width)
      (fun g hg => (initGenerator_ok_keys cfg g hg).2.1)
  · exact key
      (fun c => c.timing_settings.bind RawTimingSettings.question_duration)
      (fun g hg => (initGenerator_ok_keys cfg g hg).2.2.1)
  · exact key (fun c => c.voice_settings.bind RawVoiceSettings.voice_id)
      (fun g hg => (initGenerator_ok_keys cfg g hg).2.2.2)
  · exact key (fun c => c.output_settings.bind RawOutputSettings.output_dir)
      (fun g hg => (initGenerator_ok_keys cfg g hg).1)
  · intro g dur imgSize questions theme hook pairs hmiss
    have hres : ∃ e, resolve_output_filename g none = Except.error e := by
      unfold resolve_output_filename
      cases hos : g.config.output_settings with
      | none => exact ⟨GenError.keyError "output_settings", rfl⟩
      | some outs =>
        have hofn : outs.output_filename = none := by
          rw [hos] at hmiss
          simpa using hmiss
        refine ⟨GenError.keyError "output_filename", ?_⟩
        show getKey outs.output_filename "output_filename" =
          Except.error (GenError.keyError "output_filename")
        rw [hofn]
        rfl
    obtain ⟨e, he⟩ := hres
    refine ⟨e, ?_⟩
    unfold generate_video
    rw [he]

/-- Witness for C5: the empty config fails `__init__`, and a config whose
`output_settings` lacks `output_filename` makes `generate_video` (with no
explicit filename) fail with an empty work trace. -/
theorem c5_missing_key_fails_before_work_witness :
    (∃ e, initGenerator {} = Except.error e) ∧
    (∃ e, generate_video gTest (fun _ => 1) (fun _ => (1080, 1080)) []
        "t" "h" [] none = (Trace.empty, Except.error e)) :=
  ⟨(c5_missing_key_fails_before_work {}).1 rfl,
   (c5_missing_key_fails_before_work {}).2.2.2.2 gTest (fun _ => 1)
     (fun _ => (1080, 1080)) [] "t" "h" [] rfl⟩

/-- The dimensions `resize_image_for_tiktok` scales an input to always
cover the target frame: both scaled dimensions are at least the target's,
so the centered paste crops any overflow instead of leaving bars. -/
theorem scaledDims_cover (W H w h : Nat) (hw : 0 < w) (hh : 0 < h)
    (hW : 0 < W) (hH : 0 < H) :
    W ≤ (scaledDims W H w h).1 ∧ H ≤ (scaledDims W H w h).2 := by
  have hwq : (0 : ℚ) < (w : ℚ) := by exact_mod_cast hw
  have hhq : (0 : ℚ) < (h : ℚ) := by exact_mod_cast hh
  have hWq : (0 : ℚ) < (W : ℚ) := by exact_mod_cast hW
  have hHq : (0 : ℚ) < (H : ℚ) := by exact_mod_cast hH
  simp only [scaledDims]
  split
  · rename_i hgt
    refine ⟨?_, le_refl H⟩
    rw [gt_iff_lt, div_lt_div_iff hHq hhq] at hgt
    have hq : (W : ℚ) ≤ (H : ℚ) * ((w : ℚ) / (h : ℚ)) := by
      rw [← mul_div_assoc, le_div_iff hhq]
      nlinarith [hgt]
    have h0 : (0 : ℚ) ≤ (H : ℚ) * ((w : ℚ) / (h : ℚ)) :=
      le_trans (le_of_lt hWq) hq
    rw [pytrunc, if_pos h0]
    have hfl : (W : ℤ) ≤ ⌊(H : ℚ) * ((w : ℚ) / (h : ℚ))⌋ := by
      rw [Int.le_floor]
      exact_mod_cast hq
    calc W = ((W : ℤ)).toNat := (Int.toNat_natCast W).symm
      _ ≤ _ := Int.toNat_le_toNat hfl
  · rename_i hng
    refine ⟨le_refl W, ?_⟩
    have hle : (w : ℚ) / (h : ℚ) ≤ (W : ℚ) / (H : ℚ) := not_lt.mp hng
    rw [div_le_div_iff hhq hHq] at hle
    have hq : (H : ℚ) ≤ (W : ℚ) / ((w : ℚ) / (h : ℚ)) := by
      rw [div_div_eq_mul_div, le_div_iff hwq]
      nlinarith [hle]
    have h0 : (0 : ℚ) ≤ (W : ℚ) / ((w : ℚ) / (h : ℚ)) :=
      le_trans (le_of_lt hHq) hq
    rw [pytrunc, if_pos h0]
    have hfl : (H : ℤ) ≤ ⌊(W : ℚ) / ((w : ℚ) / (h : ℚ))⌋ := by
      rw [Int.le_floor]
      exact_mod_cast hq
    calc H = ((H : ℤ)).toNat := (Int.toNat_natCast H).symm
      _ ≤ _ := Int.toNat_le_toNat hfl

/-- Counterexample to C6 as stated: the claim says the scaled input is
"letterboxed on a black background", i.e. fits inside the canvas with bars.
For a 2000×1000 input against the 1080×1920 target the code scales to
3840×1920 — wider than the canvas — and pastes at x = −1380, so the paste
center-crops the overflow; no letterbox bars can appear. -/
theorem c6_resize_not_letterboxed_counterexample :
    (resize_image_for_tiktok gTest 2000 1000).canvas = (1080, 1920) ∧
    (resize_image_for_tiktok gTest 2000 1000).pastedSize = (3840, 1920) ∧
    ¬(resize_image_for_tiktok gTest 2000 1000).pastedSize.1 ≤
        (resize_image_for_tiktok gTest 2000 1000).canvas.1 ∧
    (resize_image_for_tiktok gTest 2000 1000).pastePos.1 = -1380 := by
  have hsd : scaledDims 1080 1920 2000 1000 = (3840, 1920) := by
    have hgt : ((2000 : ℕ) : ℚ) / ((1000 : ℕ) : ℚ) >
        ((1080 : ℕ) : ℚ) / ((1920 : ℕ) : ℚ) := by norm_num
    simp only [scaledDims]
    rw [if_pos hgt]
    have : pytrunc (((1920 : ℕ) : ℚ) *
        (((2000 : ℕ) : ℚ) / ((1000 : ℕ) : ℚ))) = 3840 := by
      rw [pytrunc, if_pos (by norm_num)]
      norm_num
    rw [this]
    rfl
  have hres : resize_image_for_tiktok gTest 2000 1000 =
      { canvas := (1080, 1920), canvasColor := (0, 0, 0),
        pastedSize := (3840, 1920), pastePos := (-1380, 0) } := by
    unfold resize_image_for_tiktok
    rw [show gTest.width = 1080 from rfl, show gTest.height = 1920 from rfl,
      hsd]
    rfl
  rw [hres]
  refine ⟨rfl, rfl, by decide, rfl⟩

/-- C6 (amended): for every input image the output canvas has exactly the
configured target dimensions, regardless of the input aspect ratio; the
input is scaled preserving aspect ratio so that it *covers* the canvas
(both scaled dimensions are at least the target's) and is pasted centered,
the overflow being cropped — not letterboxed. -/
theorem c6_resize_exact_target_dims (g : Generator) (w h : Nat)
    (hw : 0 < w) (hh : 0 < h) (hW : 0 < g.width) (hH : 0 < g.height) :
    (resize_image_for_tiktok g w h).canvas = (g.width, g.height) ∧
    g.width ≤ (resize_image_for_tiktok g w h).pastedSize.1 ∧
    g.height ≤ (resize_image_for_tiktok g w h).pastedSize.2 ∧
    (resize_image_for_tiktok g w h).pastePos =
      (((g.width : Int) -
          ((resize_image_for_tiktok g w h).pastedSize.1 : Int)).fdiv 2,
       ((g.height : Int) -
          ((resize_image_for_tiktok g w h).pastedSize.2 : Int)).fdiv 2) := by
  obtain ⟨h1, h2⟩ := scaledDims_cover g.width g.height w h hw hh hW hH
  exact ⟨rfl, h1, h2, rfl⟩

/-- Witness for C6 (amended) at the 2000×1000 input against the default
1080×1920 target. -/
theorem c6_resize_exact_target_dims_witness :
    (resize_image_for_tiktok gTest 2000 1000).canvas =
      (gTest.width, gTest.height) ∧
    gTest.width ≤ (resize_image_for_tiktok gTest 2000 1000).pastedSize.1 ∧
    gTest.height ≤ (resize_image_for_tiktok gTest 2000 1000).pastedSize.2 ∧
    (resize_image_for_tiktok gTest 2000 1000).pastePos =
      (((gTest.width : Int) -
          ((resize_image_for_tiktok gTest 2000 1000).pastedSize.1 : Int)).fdiv 2,
       ((gTest.height : Int) -
          ((resize_image_for_tiktok gTest 2000 1000).pastedSize.2 : Int)).fdiv 2) :=
  c6_resize_exact_target_dims gTest 2000 1000 (by decide) (by decide)
    (by decide) (by decide)

/-- C7: the square-crop path of `create_resized_clip` converts the image to
RGB, center-crops a square of side `min w h` — box
`((w−h)/2, 0, (w−h)/2+h, h)` when `w > h`, `(0, (h−w)/2, w, (h−w)/2+w)`
when `h > w`, identity when `w = h` (`/` is integer floor division) — and
resamples to exactly `new_size × new_size`. -/
theorem c7_square_crop (w h new_size : Nat) (d : ℚ) :
    (create_resized_clip w h new_size d).mode = "RGB" ∧
    (create_resized_clip w h new_size d).outSize = (new_size, new_size) ∧
    (w = h → cropBox w h = (0, 0, w, h)) ∧
    (w > h → cropBox w h = ((w - h) / 2, 0, (w - h) / 2 + h, h)) ∧
    (h > w → cropBox w h = (0, (h - w) / 2, w, (h - w) / 2 + w)) ∧
    (cropBox w h).2.2.1 - (cropBox w h).1 = min w h ∧
    (cropBox w h).2.2.2 - (cropBox w h).2.1 = min w h := by
  refine ⟨rfl, rfl, ?_, ?_, ?_, ?_, ?_⟩
  · intro he
    simp [cropBox, he]
  · intro hgt
    rw [cropBox, if_neg (by omega), if_pos hgt]
  · intro hlt
    rw [cropBox, if_neg (by omega), if_neg (by omega)]
  · unfold cropBox
    split_ifs <;> (simp ; try omega)
  · unfold cropBox
    split_ifs <;> (simp ; try omega)

/-- Witness for C7: a 5×3 image is cropped to the centered 3×3 square
`(1, 0, 4, 3)` and resampled to 100×100. -/
theorem c7_square_crop_witness :
    cropBox 5 3 = (1, 0, 4, 3) ∧
    (create_resized_clip 5 3 100 2).outSize = (100, 100) := by
  refine ⟨?_, (c7_square_crop 5 3 100 2).2.1⟩
  have hc := (c7_square_crop 5 3 100 2).2.2.2.1 (by decide)
  simpa using hc

/-- Counterexample to C8 as stated: the code truncates the interpolated
offset with `int(...)` (tiktok_generator.py line 201), so at `t = 0.13` the
vertical offset is `int(44.4) = 44` pixels, not the claim's exact
`(1 − t/0.5)·60 = 44.4`. -/
theorem c8_caption_position_counterexample :
    ((_text_clip "hi" 1 80 900 (0, 0) true).posAt (13/100)).2 = 44 ∧
    ¬((((_text_clip "hi" 1 80 900 (0, 0) true).posAt (13/100)).2 : ℚ) =
        (0 : ℚ) + (1 - (13/100 : ℚ) / (1/2)) * 60) := by
  have hval : ((_text_clip "hi" 1 80 900 (0, 0) true).posAt (13/100)).2 =
      44 := by
    show (if (13/100 : ℚ) < 1/2 then
        (((0 : Int), (0 : Int)).1,
         ((0 : Int), (0 : Int)).2 +
           pytrunc ((1 - (13/100 : ℚ) / (1/2)) * 60))
      else ((0 : Int), (0 : Int))).2 = 44
    rw [if_pos (show (13/100 : ℚ) < 1/2 by norm_num)]
    show (0 : Int) + pytrunc ((1 - (13/100 : ℚ) / (1/2)) * 60) = 44
    rw [pytrunc, if_pos (by norm_num)]
    norm_num
  refine ⟨hval, ?_⟩
  rw [hval]
  norm_num

/-- C8 (amended): the animated caption enters at vertical offset `y + 60`
at `t = 0`, sits at `(x, y + ⌊(1 − t/0.5)·60⌋)` for `0 ≤ t < 0.5` (the
linear interpolation truncated to whole pixels by `int(...)`, hence
weakly decreasing rather than exactly linear), rests at the target `(x, y)`
for every `t ≥ 0.5`, and carries a 0.4 s fade-in and an equal 0.4 s
fade-out. -/
theorem c8_caption_animation (text : String) (d : ℚ) (fs mw : Nat)
    (x y : Int) (t : ℚ) :
    (_text_clip text d fs mw (x, y) true).posAt 0 = (x, y + 60) ∧
    (0 ≤ t → t < 1/2 →
      (_text_clip text d fs mw (x, y) true).posAt t =
        (x, y + ⌊(1 - t / (1/2)) * 60⌋)) ∧
    (1/2 ≤ t → (_text_clip text d fs mw (x, y) true).posAt t = (x, y)) ∧
    (_text_clip text d fs mw (x, y) true).fadeIn = 2/5 ∧
    (_text_clip text d fs mw (x, y) true).fadeOut = 2/5 := by
  refine ⟨?_, ?_, ?_, rfl, rfl⟩
  · show (if (0:ℚ) < 1/2 then
        ((x, y).1, (x, y).2 + pytrunc ((1 - (0:ℚ) / (1/2)) * 60))
      else (x, y)) = (x, y + 60)
    rw [if_pos (by norm_num)]
    have h60 : pytrunc ((1 - (0:ℚ) / (1/2)) * 60) = 60 := by
      rw [pytrunc, if_pos (by norm_num)]
      norm_num
    rw [h60]
  · intro h0 hlt
    show (if t < 1/2 then
        ((x, y).1, (x, y).2 + pytrunc ((1 - t / (1/2)) * 60))
      else (x, y)) = (x, y + ⌊(1 - t / (1/2)) * 60⌋)
    rw [if_pos hlt]
    have hq : (0 : ℚ) ≤ (1 - t / (1/2)) * 60 := by
      have ht2 : t / (1/2 : ℚ) = 2 * t := by ring
      rw [ht2]
      nlinarith [hlt]
    rw [pytrunc, if_pos hq]
  · intro hge
    show (if t < 1/2 then
        ((x, y).1, (x, y).2 + pytrunc ((1 - t / (1/2)) * 60))
      else (x, y)) = (x, y)
    rw [if_neg (not_lt.mpr hge)]

/-- Witness for C8 (amended) at `t = 0` (start of the ease-in) and
`t = 0.5` (arrival at the target). -/
theorem c8_caption_animation_witness :
    (_text_clip "hook" 1 80 900 (100, 200) true).posAt 0 =
      (100, 200 + ⌊(1 - (0:ℚ) / (1/2)) * 60⌋) ∧
    (_text_clip "hook" 1 80 900 (100, 200) true).posAt (1/2) = (100, 200) :=
  ⟨(c8_caption_animation "hook" 1 80 900 100 200 0).2.1 (le_refl 0)
      one_half_pos,
   (c8_caption_animation "hook" 1 80 900 100 200 (1/2)).2.2.1
      (le_refl (1/2 : ℚ))⟩

/-- C9: with an explicit `--images` list, a length other than
2 × (number of questions) raises a `ValueError` before `generate_video`
runs (empty work trace); otherwise question `i` (0-based) is paired with
the images at positions `2i` and `2i+1`, in the given order. -/
theorem c9_cli_image_pairing (g : Generator) (dur : String → ℚ)
    (imgSize : String → Nat × Nat) (questions : List String)
    (theme hook : String) (image_paths : List String)
    (ofn : Option String) :
    (image_paths.length ≠ questions.length * 2 →
      cli_run g dur imgSize questions theme hook image_paths ofn =
        (Trace.empty, Except.error (GenError.valueError
          "expected 2 images per question"))) ∧
    (image_paths.length = questions.length * 2 →
      cli_run g dur imgSize questions theme hook image_paths ofn =
        generate_video g dur imgSize questions theme hook
          (pairUp image_paths) ofn ∧
      ∀ i, i < questions.length →
        (pairUp image_paths).getD i ("", "") =
          (image_paths.getD (2 * i) "",
           image_paths.getD (2 * i + 1) "")) := by
  constructor
  · intro hne
    unfold cli_run cli_pair_images
    rw [if_pos hne]
  · intro heq
    refine ⟨?_, ?_⟩
    · unfold cli_run cli_pair_images
      rw [if_neg (by omega)]
    · intro i hi
      exact pairUp_getD "" image_paths i (by omega)

/-- Witness for C9: one question with one image fails before
`generate_video`; two questions with four images pair question 1 with the
images at positions 2 and 3. -/
theorem c9_cli_image_pairing_witness :
    cli_run gTest (fun _ => 1) (fun _ => (10, 10)) ["a"] "t" "h" ["i1"]
        (some "o.mp4") =
      (Trace.empty, Except.error (GenError.valueError
        "expected 2 images per question")) ∧
    (pairUp ["i1", "i2", "i3", "i4"]).getD 1 ("", "") =
      (["i1", "i2", "i3", "i4"].getD 2 "",
       ["i1", "i2", "i3", "i4"].getD 3 "") :=
  ⟨(c9_cli_image_pairing gTest (fun _ => 1) (fun _ => (10, 10)) ["a"] "t"
      "h" ["i1"] (some "o.mp4")).1 (by decide),
   ((c9_cli_image_pairing gTest (fun _ => 1) (fun _ => (10, 10)) ["a", "b"]
      "t" "h" ["i1", "i2", "i3", "i4"] (some "o.mp4")).2 (by decide)).2 1
      (by decide)⟩

/-- C10: for every hex string of an optional leading `#` and either 3 or 6
hex digits, `_hex_to_rgb` returns a triple of integers each in 0..255, and
the 3-digit shorthand expands by doubling each digit, so
`_hex_to_rgb("#abc") = _hex_to_rgb("#aabbcc")`. -/
theorem c10_hex_to_rgb (s : String)
    (hdig : ∀ c ∈ s.toList.dropWhile (· = '#'), (hexDigit c).isSome)
    (hlen : (s.toList.dropWhile (· = '#')).length = 3 ∨
            (s.toList.dropWhile (· = '#')).length = 6) :
    (∃ r g b, hex_to_rgb s = some (r, g, b) ∧
      r ≤ 255 ∧ g ≤ 255 ∧ b ≤ 255) ∧
    hex_to_rgb "#abc" = hex_to_rgb "#aabbcc" := by
  refine ⟨?_, rfl⟩
  rcases hlen with h3 | h6
  · obtain ⟨a, b, c, ht⟩ := List.length_eq_three.mp h3
    obtain ⟨va, hva⟩ := Option.isSome_iff_exists.mp
      (hdig a (by rw [ht]; exact List.mem_cons_self a _))
    obtain ⟨vb, hvb⟩ := Option.isSome_iff_exists.mp
      (hdig b (by rw [ht]; simp))
    obtain ⟨vc, hvc⟩ := Option.isSome_iff_exists.mp
      (hdig c (by rw [ht]; simp))
    refine ⟨va * 16 + va, vb * 16 + vb, vc * 16 + vc, ?_, by
        have := hexDigit_le_15 hva; omega, by
        have := hexDigit_le_15 hvb; omega, by
        have := hexDigit_le_15 hvc; omega⟩
    unfold hex_to_rgb
    rw [ht]
    have hflat : (if ([a, b, c] : List Char).length = 3 then
        ([a, b, c] : List Char).flatMap (fun c => [c, c]) else [a, b, c]) =
        [a, a, b, b, c, c] := by simp [List.flatMap]
    have h0 : slice2 [a, a, b, b, c, c] 0 = [a, a] := rfl
    have h2 : slice2 [a, a, b, b, c, c] 2 = [b, b] := rfl
    have h4 : slice2 [a, a, b, b, c, c] 4 = [c, c] := rfl
    simp only [hflat, h0, h2, h4, parseHex_pair hva hva,
      parseHex_pair hvb hvb, parseHex_pair hvc hvc]
  · obtain ⟨a, t1, ht⟩ := List.exists_of_length_succ _
      (show (s.toList.dropWhile (· = '#')).length = 5 + 1 by omega)
    have hl1 : t1.length = 5 := by
      rw [ht] at h6
      simpa using h6
    obtain ⟨b, t2, ht1⟩ := List.exists_of_length_succ t1
      (show t1.length = 4 + 1 by omega)
    have hl2 : t2.length = 4 := by
      rw [ht1] at hl1
      simpa using hl1
    obtain ⟨c, t3, ht2⟩ := List.exists_of_length_succ t2
      (show t2.length = 3 + 1 by omega)
    have hl3 : t3.length = 3 := by
      rw [ht2] at hl2
      simpa using hl2
    obtain ⟨d, t4, ht3⟩ := List.exists_of_length_succ t3
      (show t3.length = 2 + 1 by omega)
    have hl4 : t4.length = 2 := by
      rw [ht3] at hl3
      simpa using hl3
    obtain ⟨e, t5, ht4⟩ := List.exists_of_length_succ t4
      (show t4.length = 1 + 1 by omega)
    have hl5 : t5.length = 1 := by
      rw [ht4] at hl4
      simpa using hl4
    obtain ⟨f, t6, ht5⟩ := List.exists_of_length_succ t5
      (show t5.length = 0 + 1 by omega)
    have hl6 : t6.length = 0 := by
      rw [ht5] at hl5
      simpa using hl5
    have ht6 : t6 = [] := List.length_eq_zero.mp hl6
    rw [ht6] at ht5
    rw [ht1, ht2, ht3, ht4, ht5] at ht
    obtain ⟨va, hva⟩ := Option.isSome_iff_exists.mp
      (hdig a (by rw [ht]; simp))
    obtain ⟨vb, hvb⟩ := Option.isSome_iff_exists.mp
      (hdig b (by rw [ht]; simp))
    obtain ⟨vc, hvc⟩ := Option.isSome_iff_exists.mp
      (hdig c (by rw [ht]; simp))
    obtain ⟨vd, hvd⟩ := Option.isSome_iff_exists.mp
      (hdig d (by rw [ht]; simp))
    obtain ⟨ve, hve⟩ := Option.isSome_iff_exists.mp
      (hdig e (by rw [ht]; simp))
    obtain ⟨vf, hvf⟩ := Option.isSome_iff_exists.mp
      (hdig f (by rw [ht]; simp))
    refine ⟨va * 16 + vb, vc * 16 + vd, ve * 16 + vf, ?_, by
        have h1 := hexDigit_le_15 hva
        have h2 := hexDigit_le_15 hvb
        omega, by
        have h1 := hexDigit_le_15 hvc
        have h2 := hexDigit_le_15 hvd
        omega, by
        have h1 := hexDigit_le_15 hve
        have h2 := hexDigit_le_15 hvf
        omega⟩
    unfold hex_to_rgb
    rw [ht]
    have hflat : (if ([a, b, c, d, e, f] : List Char).length = 3 then
        ([a, b, c, d, e, f] : List Char).flatMap (fun c => [c, c])
      else [a, b, c, d, e, f]) = [a, b, c, d, e, f] := by simp
    have h0 : slice2 [a, b, c, d, e, f] 0 = [a, b] := rfl
    have h2 : slice2 [a, b, c, d, e, f] 2 = [c, d] := rfl
    have h4 : slice2 [a, b, c, d, e, f] 4 = [e, f] := rfl
    simp only [hflat, h0, h2, h4, parseHex_pair hva hvb,
      parseHex_pair hvc hvd, parseHex_pair hve hvf]

/-- Witness for C10 at the 3-digit shorthand `"#abc"`. -/
theorem c10_hex_to_rgb_witness :
    (∃ r g b, hex_to_rgb "#abc" = some (r, g, b) ∧
      r ≤ 255 ∧ g ≤ 255 ∧ b ≤ 255) ∧
    hex_to_rgb "#abc" = hex_to_rgb "#aabbcc" :=
  c10_hex_to_rgb "#abc" (by decide) (Or.inl rfl)

end CoupleQuiz
